import Mathlib

/-!
Verification of the Flamesblue laundry-delivery backend (`main.py`, `schemas.py`)
against its natural-language specification.

The development shallowly embeds:
* the generic document model (Python dicts mapping string keys to BSON-ish
  values) as association lists `Doc = List (String × Value)` with the
  Python-dict operations (first-occurrence lookup, in-place replacement on
  key collision, append on fresh key);
* the codec `serialize_doc` from `main.py`;
* `ObjectId` validation and canonicalisation from `bson` as used by `main.py`;
* the pydantic schemas of `schemas.py` as parse functions from raw inputs
  (fields optionally present) into typed records, returning `Except` on
  validation failure;
* the HTTP handlers `create_order` and `update_order_status` from `main.py`,
  with the Mongo `order` collection modelled as a list of documents and
  store calls counted explicitly.
-/

namespace Flamesblue

/-- A BSON ObjectId, abstracted by its canonical (lowercase) 24-hex string. -/
structure BsonObjectId where
  hex : String
deriving DecidableEq, Repr

/-- A Python `datetime`, abstracted by its `isoformat()` string and its
`str()` representation (which differ in Python). -/
structure PyDatetime where
  iso : String
  strRepr : String
deriving DecidableEq, Repr

/-- A top-level value stored in a document. -/
inductive Value where
  | vId (o : BsonObjectId)
  | vDatetime (t : PyDatetime)
  | vStr (s : String)
  | vInt (n : Int)
  | vBool (b : Bool)
deriving DecidableEq, Repr

/-- Python `str()` on a stored value. -/
def pyStr : Value → String
  | .vId o => o.hex
  | .vDatetime t => t.strRepr
  | .vStr s => s
  | .vInt n => toString n
  | .vBool b => if b then "True" else "False"

/-- Whether `hasattr(v, "isoformat")` holds: only datetimes do. -/
def hasIsoformat : Value → Bool
  | .vDatetime _ => true
  | _ => false

/-- The body of the datetime-conversion loop of `serialize_doc`: a value with
an `isoformat` attribute is replaced by its isoformat string. -/
def convVal : Value → Value
  | .vDatetime t => .vStr t.iso
  | v => v

/-- A document: a Python dict from string keys to values, as an ordered
association list (Python dicts are ordered and have unique keys). -/
abbrev Doc := List (String × Value)

/-- Python `d[k]` / `k in d` lookup: first occurrence. -/
def dictLookup (k : String) : Doc → Option Value
  | [] => none
  | p :: d => if p.1 = k then some p.2 else dictLookup k d

/-- Python `d[k] = v`: replace in place when the key is present, else append. -/
def dictSet (d : Doc) (k : String) (v : Value) : Doc :=
  if (dictLookup k d).isSome then
    d.map (fun p => if p.1 = k then (k, v) else p)
  else
    d ++ [(k, v)]

/-- Python `d.pop(k)` (the removal part): drop the entry with key `k`. -/
def dictPop (k : String) (d : Doc) : Doc :=
  d.filter (fun p => ¬ p.1 = k)

/-- Apply `f` to every value of the document, keeping keys and order (the
effect of `for k, v in list(out.items()): out[k] = f(v)` on a dict). -/
def mapVals (f : Value → Value) (d : Doc) : Doc :=
  d.map (fun p => (p.1, f p.2))

/-- The `_id` handling of `serialize_doc`:
`if "_id" in out: out["id"] = str(out.pop("_id"))`. -/
def renameId (d : Doc) : Doc :=
  match dictLookup "_id" d with
  | some v => dictSet (dictPop "_id" d) "id" (.vStr (pyStr v))
  | none => d

/-- `serialize_doc` from `main.py`: copy the document, rename `_id` to `id`
converted by `str`, then convert every value having `isoformat` to its
isoformat string. -/
def serialize_doc (d : Doc) : Doc :=
  mapVals convVal (renameId d)

/-! ### ObjectId validation and the order collection -/

/-- Lowercase a single ASCII letter, as Python's hex canonicalisation does. -/
def lowerChar (c : Char) : Char :=
  if 'A' ≤ c ∧ c ≤ 'Z' then Char.ofNat (c.toNat + 32) else c

/-- Lowercase a string (enough for hex strings). -/
def lowerString (s : String) : String :=
  ⟨s.data.map lowerChar⟩

/-- `ObjectId.is_valid` from `bson` on a string argument: exactly the
24-character hex strings are valid. -/
def isValidObjectId (s : String) : Bool :=
  s.length == 24 &&
    s.data.all (fun c => c.isDigit || ('a' ≤ c && c ≤ 'f') || ('A' ≤ c && c ≤ 'F'))

/-- `ObjectId(s)` on a valid hex string: the id is the 12 bytes it denotes,
whose canonical string form (`str(ObjectId(s))`) is the lowercase hex. -/
def objectIdOfString (s : String) : BsonObjectId :=
  ⟨lowerString s⟩

/-- The Order status enum of `schemas.py`. -/
inductive OrderStatus where
  | PENDING | DRIVER_ASSIGNED | PICKED_UP | IN_WASH | OUT_FOR_DELIVERY | DELIVERED
deriving DecidableEq, Repr

/-- The literal string of an Order status. -/
def statusStr : OrderStatus → String
  | .PENDING => "PENDING"
  | .DRIVER_ASSIGNED => "DRIVER_ASSIGNED"
  | .PICKED_UP => "PICKED_UP"
  | .IN_WASH => "IN_WASH"
  | .OUT_FOR_DELIVERY => "OUT_FOR_DELIVERY"
  | .DELIVERED => "DELIVERED"

/-- The part of the Mongo database the handlers touch: the `order`
collection, a sequence of documents in natural order. -/
structure MongoDB where
  order : List Doc
deriving DecidableEq, Repr

/-- Whether a document matches the filter `{"_id": ObjectId(order_id)}`. -/
def docMatchesId (oid : BsonObjectId) (d : Doc) : Bool :=
  decide (dictLookup "_id" d = some (.vId oid))

/-- Mongo `update_one`: apply `f` to the first document matching `p`;
return the matched count (0 or 1) and the updated collection. -/
def updateFirst (p : Doc → Bool) (f : Doc → Doc) : List Doc → Nat × List Doc
  | [] => (0, [])
  | d :: ds =>
    if p d then (1, f d :: ds)
    else
      let r := updateFirst p f ds
      (r.1, d :: r.2)

/-- Outcome of an HTTP handler: a body with a status code, or an
`HTTPException` with a status code and detail string. -/
inductive HandlerResult where
  | ok (code : Nat) (body : Doc)
  | err (code : Nat) (detail : String)
deriving DecidableEq, Repr

/-- Result of the PATCH handler together with the database state after the
call and the number of store calls it made. -/
structure PatchOutcome where
  result : HandlerResult
  db : Option MongoDB
  storeCalls : Nat
deriving DecidableEq, Repr

/-- The `update_order_status` handler of `main.py`:
reject with 500 when `db` is `None`; reject with 400 when the id is not a
valid ObjectId; otherwise `update_one` on the filter `{"_id": oid}` with
`{"$set": {"status": payload.status}}`, 404 when nothing matched, else
`find_one` the document and return it serialized. -/
def update_order_status (db : Option MongoDB) (order_id : String)
    (payload : OrderStatus) : PatchOutcome :=
  match db with
  | none => ⟨.err 500 "Database not available", none, 0⟩
  | some s =>
    if isValidObjectId order_id then
      let oid := objectIdOfString order_id
      let r := updateFirst (docMatchesId oid)
        (fun d => dictSet d "status" (.vStr (statusStr payload))) s.order
      if r.1 = 0 then ⟨.err 404 "Order not found", some ⟨r.2⟩, 1⟩
      else
        match r.2.find? (docMatchesId oid) with
        | some doc => ⟨.ok 200 (serialize_doc doc), some ⟨r.2⟩, 2⟩
        | none => ⟨.err 500 "TypeError", some ⟨r.2⟩, 2⟩
    else ⟨.err 400 "Invalid order id", some s, 0⟩

/-! ### Record schemas (`schemas.py`) as parse functions -/

/-- The User role enum. -/
inductive Role where
  | customer | driver | admin
deriving DecidableEq, Repr

/-- The Order service type enum. -/
inductive ServiceType where
  | wash_fold | dry_clean | iron_only
deriving DecidableEq, Repr

/-- The payment method enum, shared by Order and Payment. -/
inductive PaymentMethod where
  | cod | card
deriving DecidableEq, Repr

/-- The Payment status enum. -/
inductive PaymentStatus where
  | PENDING | SUCCESS | FAILED
deriving DecidableEq, Repr

/-- A validated `User` record. -/
structure User where
  name : String
  phone : String
  email : Option String
  address : Option String
  role : Role
  is_active : Bool
deriving DecidableEq, Repr

/-- A validated `Driver` record. -/
structure Driver where
  user_id : String
  vehicle_type : Option String
  license_plate : Option String
  is_available : Bool
deriving DecidableEq, Repr

/-- A validated `OrderItem` record (quantity ≥ 1, price ≥ 0; prices are
Python floats, modelled as rationals). -/
structure OrderItem where
  name : String
  quantity : Int
  price : Rat
deriving DecidableEq, Repr

/-- A validated `Order` record. -/
structure Order where
  customer_id : String
  driver_id : Option String
  service_type : ServiceType
  items : List OrderItem
  pickup_address : String
  delivery_address : String
  scheduled_at : Option PyDatetime
  notes : Option String
  status : OrderStatus
  payment_method : PaymentMethod
  total : Rat
deriving DecidableEq, Repr

/-- A validated `Payment` record. -/
structure Payment where
  order_id : String
  amount : Rat
  method : PaymentMethod
  status : PaymentStatus
  transaction_id : Option String
deriving DecidableEq, Repr

/-- Raw construction input for `User`: each field optionally present. -/
structure UserInput where
  name : Option String
  phone : Option String
  email : Option String
  address : Option String
  role : Option String
  is_active : Option Bool
deriving DecidableEq, Repr

/-- Raw construction input for `Driver`. -/
structure DriverInput where
  user_id : Option String
  vehicle_type : Option String
  license_plate : Option String
  is_available : Option Bool
deriving DecidableEq, Repr

/-- Raw construction input for `OrderItem`. -/
structure OrderItemInput where
  name : Option String
  quantity : Option Int
  price : Option Rat
deriving DecidableEq, Repr

/-- Raw construction input for `Order`. -/
structure OrderInput where
  customer_id : Option String
  driver_id : Option String
  service_type : Option String
  items : Option (List OrderItemInput)
  pickup_address : Option String
  delivery_address : Option String
  scheduled_at : Option PyDatetime
  notes : Option String
  status : Option String
  payment_method : Option String
  total : Option Rat
deriving DecidableEq, Repr

/-- Raw construction input for `Payment`. -/
structure PaymentInput where
  order_id : Option String
  amount : Option Rat
  method : Option String
  status : Option String
  transaction_id : Option String
deriving DecidableEq, Repr

/-- A required field: absent input is a validation error. -/
def reqField {α : Type} (n : String) : Option α → Except String α
  | some a => .ok a
  | none => .error ("ValidationError: " ++ n ++ " field required")

/-- Lift an optional parse result, with the given error on failure. -/
def ofOptionE {α : Type} (err : String) : Option α → Except String α
  | some a => .ok a
  | none => .error err

/-- The `Literal["customer", "driver", "admin"]` values. -/
def parseRole (s : String) : Option Role :=
  if s = "customer" then some .customer
  else if s = "driver" then some .driver
  else if s = "admin" then some .admin
  else none

/-- The `Literal["wash_fold", "dry_clean", "iron_only"]` values. -/
def parseServiceType (s : String) : Option ServiceType :=
  if s = "wash_fold" then some .wash_fold
  else if s = "dry_clean" then some .dry_clean
  else if s = "iron_only" then some .iron_only
  else none

/-- The Order status `Literal[...]` values of `schemas.py`. -/
def parseOrderStatus (s : String) : Option OrderStatus :=
  if s = "PENDING" then some .PENDING
  else if s = "DRIVER_ASSIGNED" then some .DRIVER_ASSIGNED
  else if s = "PICKED_UP" then some .PICKED_UP
  else if s = "IN_WASH" then some .IN_WASH
  else if s = "OUT_FOR_DELIVERY" then some .OUT_FOR_DELIVERY
  else if s = "DELIVERED" then some .DELIVERED
  else none

/-- The `Literal["cod", "card"]` values. -/
def parsePaymentMethod (s : String) : Option PaymentMethod :=
  if s = "cod" then some .cod
  else if s = "card" then some .card
  else none

/-- The `Literal["PENDING", "SUCCESS", "FAILED"]` values. -/
def parsePaymentStatus (s : String) : Option PaymentStatus :=
  if s = "PENDING" then some .PENDING
  else if s = "SUCCESS" then some .SUCCESS
  else if s = "FAILED" then some .FAILED
  else none

/-- An optional enum field with a default literal. -/
def enumField {α : Type} (n : String) (p : String → Option α) (dflt : α) :
    Option String → Except String α
  | none => .ok dflt
  | some s => ofOptionE ("ValidationError: " ++ n ++ " is not a permitted literal") (p s)

/-- A required enum field. -/
def reqEnumField {α : Type} (n : String) (p : String → Option α) :
    Option String → Except String α
  | none => .error ("ValidationError: " ++ n ++ " field required")
  | some s => ofOptionE ("ValidationError: " ++ n ++ " is not a permitted literal") (p s)

/-- A `Field(..., ge=lo)` bound on a float (rational) value. -/
def geField (n : String) (lo x : Rat) : Except String Rat :=
  if lo ≤ x then .ok x
  else .error ("ValidationError: " ++ n ++ " is below the minimum")

/-- A `Field(..., ge=lo)` bound on an int value. -/
def geIntField (n : String) (lo x : Int) : Except String Int :=
  if lo ≤ x then .ok x
  else .error ("ValidationError: " ++ n ++ " is below the minimum")

/-- Validate each element in order, first error wins (pydantic rejects the
whole list iff some element is invalid). -/
def mapME {α β : Type} (f : α → Except String β) : List α → Except String (List β)
  | [] => .ok []
  | a :: l => do
    let b ← f a
    let bs ← mapME f l
    .ok (b :: bs)

/-- Construct an `OrderItem` from raw input (pydantic validation). -/
def parseOrderItem (i : OrderItemInput) : Except String OrderItem := do
  let name ← reqField "name" i.name
  let q0 ← reqField "quantity" i.quantity
  let quantity ← geIntField "quantity" 1 q0
  let p0 ← reqField "price" i.price
  let price ← geField "price" 0 p0
  .ok ⟨name, quantity, price⟩

/-- Construct an `Order` from raw input (pydantic validation). -/
def parseOrder (i : OrderInput) : Except String Order := do
  let customer_id ← reqField "customer_id" i.customer_id
  let service_type ← reqEnumField "service_type" parseServiceType i.service_type
  let items ← mapME parseOrderItem (i.items.getD [])
  let pickup_address ← reqField "pickup_address" i.pickup_address
  let delivery_address ← reqField "delivery_address" i.delivery_address
  let status ← enumField "status" parseOrderStatus .PENDING i.status
  let payment_method ← enumField "payment_method" parsePaymentMethod .cod i.payment_method
  let total ← geField "total" 0 (i.total.getD 0)
  .ok ⟨customer_id, i.driver_id, service_type, items, pickup_address,
    delivery_address, i.scheduled_at, i.notes, status, payment_method, total⟩

/-- Construct a `User` from raw input (pydantic validation). -/
def parseUser (i : UserInput) : Except String User := do
  let name ← reqField "name" i.name
  let phone ← reqField "phone" i.phone
  let role ← enumField "role" parseRole .customer i.role
  .ok ⟨name, phone, i.email, i.address, role, i.is_active.getD true⟩

/-- Construct a `Driver` from raw input (pydantic validation). -/
def parseDriver (i : DriverInput) : Except String Driver := do
  let user_id ← reqField "user_id" i.user_id
  .ok ⟨user_id, i.vehicle_type, i.license_plate, i.is_available.getD true⟩

/-- Construct a `Payment` from raw input (pydantic validation). -/
def parsePayment (i : PaymentInput) : Except String Payment := do
  let order_id ← reqField "order_id" i.order_id
  let a0 ← reqField "amount" i.amount
  let amount ← geField "amount" 0 a0
  let method ← reqEnumField "method" parsePaymentMethod i.method
  let status ← enumField "status" parsePaymentStatus .PENDING i.status
  .ok ⟨order_id, amount, method, status, i.transaction_id⟩

/-- The `StatusUpdate` payload of `main.py`: a required `status` field whose
annotated type is exactly `Order.model_fields["status"].annotation`, i.e.
the same status literals as the Order record. -/
def parseStatusUpdate (s : Option String) : Except String OrderStatus :=
  reqEnumField "status" parseOrderStatus s

/-- The `create_order` handler of `main.py`. `create_document` lives in
`database.py` (not part of the handler); its outcome — the new id, or the
exception it raised — is passed in as `createResult`. On success the
handler answers 201 with exactly `id` and `status`; on an exception it
raises a 500 with the exception text. -/
def create_order (order : Order) (createResult : Except String String) : HandlerResult :=
  match createResult with
  | .ok oid => .ok 201 [("id", .vStr oid), ("status", .vStr (statusStr order.status))]
  | .error e => .err 500 e

/-! ### Dictionary lemmas -/

theorem dictLookup_cons (k : String) (p : String × Value) (d : Doc) :
    dictLookup k (p :: d) = if p.1 = k then some p.2 else dictLookup k d := rfl

theorem dictLookup_append_left (k : String) (d e : Doc) (h : dictLookup k d = none) :
    dictLookup k (d ++ e) = dictLookup k e := by
  induction d with
  | nil => rfl
  | cons p d ih =>
    rw [dictLookup_cons] at h
    by_cases hp : p.1 = k
    · rw [if_pos hp] at h; exact absurd h (by simp)
    · rw [if_neg hp] at h
      rw [List.cons_append, dictLookup_cons, if_neg hp]
      exact ih h

theorem dictLookup_map_replace (d : Doc) (k k' : String) (v : Value) (h : ¬ k = k') :
    dictLookup k (d.map (fun p => if p.1 = k' then (k', v) else p)) = dictLookup k d := by
  induction d with
  | nil => rfl
  | cons p d ih =>
    rw [List.map_cons, dictLookup_cons, dictLookup_cons]
    by_cases hp : p.1 = k'
    · rw [if_pos hp]
      have hk1 : ¬ (k' : String) = k := fun hk => h hk.symm
      have hk2 : ¬ p.1 = k := by rw [hp]; exact hk1
      show (if (k' : String) = k then some v else _) = _
      rw [if_neg hk1, if_neg hk2, ih]
    · rw [if_neg hp]
      by_cases hk : p.1 = k
      · rw [if_pos hk, if_pos hk]
      · rw [if_neg hk, if_neg hk, ih]

theorem dictLookup_dictSet_same (d : Doc) (k : String) (v : Value) :
    dictLookup k (dictSet d k v) = some v := by
  unfold dictSet
  by_cases h : (dictLookup k d).isSome = true
  · rw [if_pos h]
    induction d with
    | nil => simp [dictLookup] at h
    | cons p d ih =>
      rw [List.map_cons]
      by_cases hp : p.1 = k
      · rw [if_pos hp, dictLookup_cons, if_pos rfl]
      · rw [if_neg hp, dictLookup_cons, if_neg hp]
        rw [dictLookup_cons, if_neg hp] at h
        exact ih h
  · rw [if_neg h]
    have hn : dictLookup k d = none := by
      cases hl : dictLookup k d with
      | none => rfl
      | some w => rw [hl] at h; simp at h
    rw [dictLookup_append_left _ _ _ hn, dictLookup_cons, if_pos rfl]

theorem dictLookup_dictSet_other (d : Doc) (k k' : String) (v : Value) (h : ¬ k = k') :
    dictLookup k (dictSet d k' v) = dictLookup k d := by
  unfold dictSet
  by_cases hs : (dictLookup k' d).isSome = true
  · rw [if_pos hs]
    exact dictLookup_map_replace d k k' v h
  · rw [if_neg hs]
    induction d with
    | nil =>
      rw [List.nil_append, dictLookup_cons, if_neg (fun hk => h hk.symm)]
    | cons p d ih =>
      have hs' : ¬ (dictLookup k' d).isSome = true := by
        intro hsd
        apply hs
        rw [dictLookup_cons]
        by_cases hpk : p.1 = k'
        · rw [if_pos hpk]; rfl
        · rw [if_neg hpk]; exact hsd
      rw [List.cons_append, dictLookup_cons, dictLookup_cons]
      by_cases hp : p.1 = k
      · rw [if_pos hp, if_pos hp]
      · rw [if_neg hp, if_neg hp, ih hs']

theorem dictPop_cons (k : String) (p : String × Value) (d : Doc) :
    dictPop k (p :: d) = if p.1 = k then dictPop k d else p :: dictPop k d := by
  unfold dictPop
  by_cases hp : p.1 = k
  · rw [if_pos hp, List.filter_cons_of_neg]
    simp [hp]
  · rw [if_neg hp, List.filter_cons_of_pos]
    simp [hp]

theorem dictLookup_dictPop_other (d : Doc) (k k' : String) (h : ¬ k = k') :
    dictLookup k (dictPop k' d) = dictLookup k d := by
  induction d with
  | nil => rfl
  | cons p d ih =>
    rw [dictPop_cons, dictLookup_cons]
    by_cases hp : p.1 = k'
    · have hpk : ¬ p.1 = k := by rw [hp]; intro hk; exact h hk.symm
      rw [if_pos hp, if_neg hpk, ih]
    · rw [if_neg hp, dictLookup_cons]
      by_cases hk : p.1 = k
      · rw [if_pos hk, if_pos hk]
      · rw [if_neg hk, if_neg hk, ih]

theorem dictLookup_dictPop_same (d : Doc) (k : String) :
    dictLookup k (dictPop k d) = none := by
  induction d with
  | nil => rfl
  | cons p d ih =>
    rw [dictPop_cons]
    by_cases hp : p.1 = k
    · rw [if_pos hp]; exact ih
    · rw [if_neg hp, dictLookup_cons, if_neg hp]; exact ih

theorem dictLookup_mapVals (f : Value → Value) (d : Doc) (k : String) :
    dictLookup k (mapVals f d) = (dictLookup k d).map f := by
  induction d with
  | nil => rfl
  | cons p d ih =>
    show dictLookup k ((p.1, f p.2) :: mapVals f d) = _
    rw [dictLookup_cons, dictLookup_cons]
    by_cases hp : p.1 = k
    · rw [if_pos hp, if_pos hp]; rfl
    · rw [if_neg hp, if_neg hp, ih]

/-! ### serialize_doc lemmas -/

theorem convVal_idem (v : Value) : convVal (convVal v) = convVal v := by
  cases v <;> rfl

theorem dictLookup_id_renameId (d : Doc) (v : Value) (h : dictLookup "_id" d = some v) :
    dictLookup "id" (renameId d) = some (.vStr (pyStr v)) := by
  unfold renameId
  rw [h]
  exact dictLookup_dictSet_same _ _ _

theorem dictLookup_underscore_renameId (d : Doc) :
    dictLookup "_id" (renameId d) = none := by
  unfold renameId
  cases h : dictLookup "_id" d with
  | none => exact h
  | some v =>
    rw [dictLookup_dictSet_other _ _ _ _ (by decide)]
    exact dictLookup_dictPop_same _ _

theorem renameId_of_no_id (d : Doc) (h : dictLookup "_id" d = none) :
    renameId d = d := by
  unfold renameId
  rw [h]

theorem dictLookup_underscore_serialize (d : Doc) :
    dictLookup "_id" (serialize_doc d) = none := by
  unfold serialize_doc
  rw [dictLookup_mapVals, dictLookup_underscore_renameId]
  rfl

theorem mapVals_mapVals (f g : Value → Value) (d : Doc) :
    mapVals f (mapVals g d) = mapVals (fun v => f (g v)) d := by
  induction d with
  | nil => rfl
  | cons p d ih => simp only [mapVals, List.map] at ih ⊢; rw [ih]

theorem dictLookup_serialize_other (d : Doc) (k : String) (h1 : ¬ k = "_id") (h2 : ¬ k = "id") :
    dictLookup k (serialize_doc d) = (dictLookup k d).map convVal := by
  unfold serialize_doc renameId
  cases hid : dictLookup "_id" d with
  | none => rw [dictLookup_mapVals]
  | some v =>
    rw [dictLookup_mapVals, dictLookup_dictSet_other _ _ _ _ h2,
      dictLookup_dictPop_other _ _ _ h1]

theorem dictLookup_serialize_id (d : Doc) (v : Value) (h : dictLookup "_id" d = some v) :
    dictLookup "id" (serialize_doc d) = some (.vStr (pyStr v)) := by
  unfold serialize_doc
  rw [dictLookup_mapVals, dictLookup_id_renameId d v h]
  rfl

theorem updateFirst_of_find_none (p : Doc → Bool) (f : Doc → Doc) (l : List Doc)
    (h : l.find? p = none) : updateFirst p f l = (0, l) := by
  induction l with
  | nil => rfl
  | cons d ds ih =>
    by_cases hp : p d = true
    · rw [List.find?_cons_of_pos _ hp] at h
      exact absurd h (by simp)
    · rw [List.find?_cons_of_neg _ (by simpa using hp)] at h
      unfold updateFirst
      rw [if_neg hp, ih h]

theorem updateFirst_of_find_some (p : Doc → Bool) (f : Doc → Doc)
    (hpf : ∀ d, p d = true → p (f d) = true) (l : List Doc) (d0 : Doc)
    (h : l.find? p = some d0) :
    (updateFirst p f l).1 = 1 ∧ (updateFirst p f l).2.find? p = some (f d0) := by
  induction l with
  | nil => exact absurd h (by simp)
  | cons d ds ih =>
    by_cases hp : p d = true
    · rw [List.find?_cons_of_pos _ hp] at h
      have hd : d = d0 := by injection h
      subst hd
      unfold updateFirst
      rw [if_pos hp]
      exact ⟨rfl, List.find?_cons_of_pos _ (hpf d hp)⟩
    · rw [List.find?_cons_of_neg _ (by simpa using hp)] at h
      obtain ⟨ih1, ih2⟩ := ih h
      unfold updateFirst
      rw [if_neg hp]
      refine ⟨ih1, ?_⟩
      rw [List.find?_cons_of_neg _ (by simpa using hp)]
      exact ih2

theorem docMatchesId_dictSet_status (oid : BsonObjectId) (d : Doc) (v : Value)
    (h : docMatchesId oid d = true) :
    docMatchesId oid (dictSet d "status" v) = true := by
  unfold docMatchesId at h ⊢
  rw [decide_eq_true_eq] at h
  rw [decide_eq_true_eq, dictLookup_dictSet_other _ _ _ _ (by decide)]
  exact h

/-! ### Validation lemmas -/

theorem error_of_not_ok {α : Type} (x : Except String α) (h : ∀ a, ¬ x = .ok a) :
    ∃ e, x = .error e := by
  cases x with
  | ok a => exact absurd rfl (h a)
  | error e => exact ⟨e, rfl⟩

theorem except_bind_ok {α β : Type} (x : Except String α) (f : α → Except String β) (b : β) :
    (x >>= f) = .ok b ↔ ∃ a, x = .ok a ∧ f a = .ok b := by
  cases x with
  | ok a => simp [Bind.bind, Except.bind]
  | error e => simp [Bind.bind, Except.bind]

theorem reqField_ok {α : Type} (n : String) (o : Option α) (a : α)
    (h : reqField n o = .ok a) : o = some a := by
  cases o with
  | none => exact absurd h (by simp [reqField])
  | some b =>
    have hb : b = a := by
      have : (Except.ok b : Except String α) = .ok a := h
      injection this
    rw [hb]

theorem geField_ok (n : String) (lo x y : Rat) (h : geField n lo x = .ok y) :
    lo ≤ x ∧ y = x := by
  unfold geField at h
  by_cases hle : lo ≤ x
  · rw [if_pos hle] at h
    injection h with h'
    exact ⟨hle, h'.symm⟩
  · rw [if_neg hle] at h
    exact absurd h (by simp)

theorem geIntField_ok (n : String) (lo x y : Int) (h : geIntField n lo x = .ok y) :
    lo ≤ x ∧ y = x := by
  unfold geIntField at h
  by_cases hle : lo ≤ x
  · rw [if_pos hle] at h
    injection h with h'
    exact ⟨hle, h'.symm⟩
  · rw [if_neg hle] at h
    exact absurd h (by simp)

theorem enumField_ok_some {α : Type} (n : String) (p : String → Option α) (dflt : α)
    (s : String) (a : α) (h : enumField n p dflt (some s) = .ok a) : p s = some a := by
  simp only [enumField] at h
  cases hp : p s with
  | none => rw [hp] at h; exact absurd h (by simp [ofOptionE])
  | some b =>
    rw [hp] at h
    have : (Except.ok b : Except String α) = .ok a := h
    injection this with h'
    rw [h']

theorem reqEnumField_ok_some {α : Type} (n : String) (p : String → Option α)
    (s : String) (a : α) (h : reqEnumField n p (some s) = .ok a) : p s = some a := by
  simp only [reqEnumField] at h
  cases hp : p s with
  | none => rw [hp] at h; exact absurd h (by simp [ofOptionE])
  | some b =>
    rw [hp] at h
    have : (Except.ok b : Except String α) = .ok a := h
    injection this with h'
    rw [h']

theorem mapME_ok_forall {α β : Type} (f : α → Except String β) (l : List α) (bs : List β)
    (h : mapME f l = .ok bs) : ∀ x ∈ l, ∃ b, f x = .ok b := by
  induction l generalizing bs with
  | nil => intro x hx; exact absurd hx (List.not_mem_nil x)
  | cons a l ih =>
    simp only [mapME, except_bind_ok] at h
    obtain ⟨b, hb, bs', hbs', _⟩ := h
    intro x hx
    rcases List.mem_cons.mp hx with rfl | hx'
    · exact ⟨b, hb⟩
    · exact ih bs' hbs' x hx'

theorem parseOrderItem_ok (i : OrderItemInput) (b : OrderItem)
    (h : parseOrderItem i = .ok b) :
    i.name = some b.name ∧ i.quantity = some b.quantity ∧ 1 ≤ b.quantity ∧
      i.price = some b.price ∧ 0 ≤ b.price := by
  simp only [parseOrderItem, except_bind_ok, Except.ok.injEq] at h
  obtain ⟨name, hname, q0, hq0, quantity, hq, p0, hp0, price, hp, hmk⟩ := h
  subst hmk
  obtain ⟨hq1, hq2⟩ := geIntField_ok _ _ _ _ hq
  obtain ⟨hp1, hp2⟩ := geField_ok _ _ _ _ hp
  subst hq2
  subst hp2
  exact ⟨reqField_ok _ _ _ hname, reqField_ok _ _ _ hq0, hq1,
    reqField_ok _ _ _ hp0, hp1⟩

theorem parseOrder_ok (i : OrderInput) (o : Order) (h : parseOrder i = .ok o) :
    i.customer_id = some o.customer_id ∧
    o.driver_id = i.driver_id ∧
    reqEnumField "service_type" parseServiceType i.service_type = .ok o.service_type ∧
    mapME parseOrderItem (i.items.getD []) = .ok o.items ∧
    i.pickup_address = some o.pickup_address ∧
    i.delivery_address = some o.delivery_address ∧
    enumField "status" parseOrderStatus .PENDING i.status = .ok o.status ∧
    enumField "payment_method" parsePaymentMethod .cod i.payment_method = .ok o.payment_method ∧
    geField "total" 0 (i.total.getD 0) = .ok o.total := by
  simp only [parseOrder, except_bind_ok, Except.ok.injEq] at h
  obtain ⟨cid, hcid, st, hst, items, hitems, pu, hpu, de, hde, stat, hstat,
    pm, hpm, tot, htot, hmk⟩ := h
  subst hmk
  exact ⟨reqField_ok _ _ _ hcid, rfl, hst, hitems, reqField_ok _ _ _ hpu,
    reqField_ok _ _ _ hde, hstat, hpm, htot⟩

theorem parseUser_ok (i : UserInput) (u : User) (h : parseUser i = .ok u) :
    i.name = some u.name ∧ i.phone = some u.phone ∧
    enumField "role" parseRole .customer i.role = .ok u.role ∧
    u.is_active = i.is_active.getD true := by
  simp only [parseUser, except_bind_ok, Except.ok.injEq] at h
  obtain ⟨name, hname, phone, hphone, role, hrole, hmk⟩ := h
  subst hmk
  exact ⟨reqField_ok _ _ _ hname, reqField_ok _ _ _ hphone, hrole, rfl⟩

theorem parseDriver_ok (i : DriverInput) (dr : Driver) (h : parseDriver i = .ok dr) :
    i.user_id = some dr.user_id ∧ dr.is_available = i.is_available.getD true := by
  simp only [parseDriver, except_bind_ok, Except.ok.injEq] at h
  obtain ⟨uid, huid, hmk⟩ := h
  subst hmk
  exact ⟨reqField_ok _ _ _ huid, rfl⟩

theorem parsePayment_ok (i : PaymentInput) (pa : Payment) (h : parsePayment i = .ok pa) :
    i.order_id = some pa.order_id ∧
    i.amount = some pa.amount ∧ 0 ≤ pa.amount ∧
    reqEnumField "method" parsePaymentMethod i.method = .ok pa.method ∧
    enumField "status" parsePaymentStatus .PENDING i.status = .ok pa.status := by
  simp only [parsePayment, except_bind_ok, Except.ok.injEq] at h
  obtain ⟨oid, hoid, a0, ha0, amount, ha, method, hm, stat, hs, hmk⟩ := h
  subst hmk
  obtain ⟨ha1, ha2⟩ := geField_ok _ _ _ _ ha
  subst ha2
  exact ⟨reqField_ok _ _ _ hoid, reqField_ok _ _ _ ha0, ha1, hm, hs⟩

/-- C1, proved below: `serialize_doc` is idempotent. -/
theorem serialize_doc_idem (d : Doc) :
    serialize_doc (serialize_doc d) = serialize_doc d := by
  unfold serialize_doc
  rw [renameId_of_no_id _ (by
    rw [dictLookup_mapVals, dictLookup_underscore_renameId]; rfl)]
  rw [mapVals_mapVals]
  have : (fun v => convVal (convVal v)) = convVal := by
    funext v; exact convVal_idem v
  rw [this]

end Flamesblue

open Flamesblue

/-- C1: decoding is idempotent — for every document `d`,
`serialize_doc (serialize_doc d) = serialize_doc d`, so re-decoding an
already-decoded document does not change the observable representation. -/
theorem C1_serialize_doc_idempotent (d : Flamesblue.Doc) :
    Flamesblue.serialize_doc (Flamesblue.serialize_doc d) = Flamesblue.serialize_doc d :=
  Flamesblue.serialize_doc_idem d

/-- C2 counterexample: with the store handle `None` and the malformed id
`"not-a-valid-id"`, the PATCH handler fails with 500 "Database not
available", not with the 400 client error the claim requires regardless of
store availability (the `db is None` check precedes the id check). -/
theorem C2_counterexample :
    isValidObjectId "not-a-valid-id" = false ∧
    (update_order_status none "not-a-valid-id" .PENDING).result =
      .err 500 "Database not available" ∧
    ¬ (update_order_status none "not-a-valid-id" .PENDING).result =
      .err 400 "Invalid order id" := by
  refine ⟨rfl, rfl, ?_⟩
  decide

/-- C2 (amended): when the store handle is available, a PATCH with an
order id that is not a valid ObjectId fails with 400 "Invalid order id",
leaves the store unchanged and makes no store call; when the handle is
`None` the handler instead fails with 500 "Database not available"
(still without any store call), whatever the id. -/
theorem C2_patch_invalid_id (s : MongoDB) (order_id : String)
    (payload : OrderStatus) (h : isValidObjectId order_id = false) :
    update_order_status (some s) order_id payload =
      ⟨.err 400 "Invalid order id", some s, 0⟩ ∧
    update_order_status none order_id payload =
      ⟨.err 500 "Database not available", none, 0⟩ := by
  constructor
  · simp only [update_order_status, h]
    rfl
  · rfl

/-- Witness for C2: the amended statement at the concrete id
`"not-a-valid-id"` and the empty order collection. -/
theorem C2_patch_invalid_id_witness :
    update_order_status (some ⟨[]⟩) "not-a-valid-id" .PENDING =
      ⟨.err 400 "Invalid order id", some ⟨[]⟩, 0⟩ ∧
    update_order_status none "not-a-valid-id" .PENDING =
      ⟨.err 500 "Database not available", none, 0⟩ :=
  C2_patch_invalid_id ⟨[]⟩ "not-a-valid-id" .PENDING (by decide)

/-- C3 counterexample: ObjectId hex is canonicalised to lowercase, so a
PATCH with the valid but uppercase id `"507F1F77BCF86CD799439011"` on an
order stored under that id returns a document whose `id` field is the
lowercase form — not equal to the requested identifier string as the claim
demands. -/
theorem C3_counterexample :
    isValidObjectId "507F1F77BCF86CD799439011" = true ∧
    (update_order_status
        (some ⟨[[("_id", .vId ⟨"507f1f77bcf86cd799439011"⟩),
                 ("status", .vStr "PENDING")]]⟩)
        "507F1F77BCF86CD799439011" .DELIVERED).result =
      .ok 200 [("status", .vStr "DELIVERED"),
               ("id", .vStr "507f1f77bcf86cd799439011")] ∧
    ¬ ("507f1f77bcf86cd799439011" : String) = "507F1F77BCF86CD799439011" := by
  refine ⟨rfl, rfl, ?_⟩
  decide

/-- C3 (amended): for every valid identifier, with the store available:
when no order matches, the handler fails with 404 "Order not found"; when
one matches, it returns the serialized updated document, whose `status`
field is exactly the requested status string and whose `id` field equals
the canonical lowercase hex form of the requested identifier — hence the
requested identifier string itself whenever that string is already in
canonical (lowercase) form. -/
theorem C3_update_status_amended (s : MongoDB) (order_id : String)
    (payload : OrderStatus)
    (hv : isValidObjectId order_id = true) :
    (s.order.find? (docMatchesId (objectIdOfString order_id)) = none →
      update_order_status (some s) order_id payload =
        ⟨.err 404 "Order not found", some s, 1⟩) ∧
    (∀ d0, s.order.find? (docMatchesId (objectIdOfString order_id)) = some d0 →
      (update_order_status (some s) order_id payload).result =
        .ok 200 (serialize_doc
          (dictSet d0 "status" (.vStr (statusStr payload)))) ∧
      dictLookup "status" (serialize_doc
          (dictSet d0 "status" (.vStr (statusStr payload)))) =
        some (.vStr (statusStr payload)) ∧
      dictLookup "id" (serialize_doc
          (dictSet d0 "status" (.vStr (statusStr payload)))) =
        some (.vStr (lowerString order_id))) := by
  constructor
  · intro hnone
    simp only [update_order_status, hv, if_true,
      updateFirst_of_find_none _ _ _ hnone]
  · intro d0 hfind
    obtain ⟨h1, h2⟩ := updateFirst_of_find_some
      (docMatchesId (objectIdOfString order_id))
      (fun d => dictSet d "status" (.vStr (statusStr payload)))
      (fun d hd => docMatchesId_dictSet_status _ d _ hd) s.order d0 hfind
    have hmatch : docMatchesId (objectIdOfString order_id) d0 = true :=
      List.find?_some hfind
    have hid : dictLookup "_id" d0 = some (.vId (objectIdOfString order_id)) := by
      unfold docMatchesId at hmatch
      exact of_decide_eq_true hmatch
    have hid' : dictLookup "_id" (dictSet d0 "status" (.vStr (statusStr payload))) =
        some (.vId (objectIdOfString order_id)) := by
      rw [dictLookup_dictSet_other _ _ _ _ (by decide)]
      exact hid
    refine ⟨?_, ?_, ?_⟩
    · simp only [update_order_status, hv, if_true, h1, h2]
      rfl
    · rw [dictLookup_serialize_other _ _ (by decide) (by decide),
        dictLookup_dictSet_same]
      rfl
    · rw [dictLookup_serialize_id _ _ hid']
      rfl

/-- Witness for C3: the amended statement at concrete valid ids — a
lowercase id on an empty collection (404), and an uppercase id on a
collection holding that order (updated document returned, with the `id`
field in lowercase canonical form). -/
theorem C3_update_status_amended_witness :
    (update_order_status (some ⟨[]⟩) "507f1f77bcf86cd799439011" .DELIVERED =
      ⟨.err 404 "Order not found", some ⟨[]⟩, 1⟩) ∧
    ((update_order_status
        (some ⟨[[("_id", .vId ⟨"507f1f77bcf86cd799439011"⟩),
                 ("status", .vStr "PENDING")]]⟩)
        "507F1F77BCF86CD799439011" .DELIVERED).result =
      .ok 200 (serialize_doc
        (dictSet [("_id", .vId ⟨"507f1f77bcf86cd799439011"⟩),
                  ("status", .vStr "PENDING")] "status"
          (.vStr (statusStr .DELIVERED)))) ∧
     dictLookup "status" (serialize_doc
        (dictSet [("_id", .vId ⟨"507f1f77bcf86cd799439011"⟩),
                  ("status", .vStr "PENDING")] "status"
          (.vStr (statusStr .DELIVERED)))) =
       some (.vStr (statusStr .DELIVERED)) ∧
     dictLookup "id" (serialize_doc
        (dictSet [("_id", .vId ⟨"507f1f77bcf86cd799439011"⟩),
                  ("status", .vStr "PENDING")] "status"
          (.vStr (statusStr .DELIVERED)))) =
       some (.vStr (lowerString "507F1F77BCF86CD799439011"))) :=
  ⟨(C3_update_status_amended ⟨[]⟩ "507f1f77bcf86cd799439011" .DELIVERED
      (by decide)).1 rfl,
   (C3_update_status_amended
      ⟨[[("_id", .vId ⟨"507f1f77bcf86cd799439011"⟩),
         ("status", .vStr "PENDING")]]⟩
      "507F1F77BCF86CD799439011" .DELIVERED
      (by decide)).2
      [("_id", .vId ⟨"507f1f77bcf86cd799439011"⟩), ("status", .vStr "PENDING")]
      (by decide)⟩

/-- C4 counterexample: a document carrying both `_id` and a timestamp
under the key `id` — the timestamp under `id` is overwritten by the
identifier string instead of being converted to its ISO form, so the
claim's "every top-level timestamp field is converted" fails. -/
theorem C4_counterexample :
    dictLookup "id"
        [("_id", .vId ⟨"507f1f77bcf86cd799439011"⟩),
         ("id", .vDatetime ⟨"2024-01-01T00:00:00", "2024-01-01 00:00:00"⟩)] =
      some (.vDatetime ⟨"2024-01-01T00:00:00", "2024-01-01 00:00:00"⟩) ∧
    ¬ dictLookup "id" (serialize_doc
        [("_id", .vId ⟨"507f1f77bcf86cd799439011"⟩),
         ("id", .vDatetime ⟨"2024-01-01T00:00:00", "2024-01-01 00:00:00"⟩)]) =
      some (.vStr "2024-01-01T00:00:00") := by
  refine ⟨rfl, ?_⟩
  decide

/-- C4 (amended): for every document whose `_id` holds a native
identifier, `serialize_doc` exposes an `id` field holding the identifier's
canonical hex string, leaves no `_id` key in the output, and converts
every top-level timestamp field other than one stored under the key `id`
(which is overwritten by the identifier string) to its ISO-8601 string. -/
theorem C4_serialize_renames_and_converts (d : Doc) (o : BsonObjectId)
    (h : dictLookup "_id" d = some (.vId o)) :
    dictLookup "id" (serialize_doc d) = some (.vStr o.hex) ∧
    dictLookup "_id" (serialize_doc d) = none ∧
    (∀ k t, ¬ k = "_id" → ¬ k = "id" → dictLookup k d = some (.vDatetime t) →
      dictLookup k (serialize_doc d) = some (.vStr t.iso)) := by
  refine ⟨dictLookup_serialize_id d _ h, dictLookup_underscore_serialize d, ?_⟩
  intro k t h1 h2 hk
  rw [dictLookup_serialize_other d k h1 h2, hk]
  rfl

/-- Witness for C4: the amended statement at a concrete stored document
with an ObjectId `_id` and a datetime field `created_at`. -/
theorem C4_serialize_renames_and_converts_witness :
    dictLookup "id" (serialize_doc
        [("_id", .vId ⟨"507f1f77bcf86cd799439011"⟩),
         ("created_at", .vDatetime ⟨"2024-01-01T00:00:00", "2024-01-01 00:00:00"⟩)]) =
      some (.vStr "507f1f77bcf86cd799439011") ∧
    dictLookup "_id" (serialize_doc
        [("_id", .vId ⟨"507f1f77bcf86cd799439011"⟩),
         ("created_at", .vDatetime ⟨"2024-01-01T00:00:00", "2024-01-01 00:00:00"⟩)]) =
      none ∧
    dictLookup "created_at" (serialize_doc
        [("_id", .vId ⟨"507f1f77bcf86cd799439011"⟩),
         ("created_at", .vDatetime ⟨"2024-01-01T00:00:00", "2024-01-01 00:00:00"⟩)]) =
      some (.vStr "2024-01-01T00:00:00") := by
  obtain ⟨h1, h2, h3⟩ := C4_serialize_renames_and_converts
    [("_id", .vId ⟨"507f1f77bcf86cd799439011"⟩),
     ("created_at", .vDatetime ⟨"2024-01-01T00:00:00", "2024-01-01 00:00:00"⟩)]
    ⟨"507f1f77bcf86cd799439011"⟩ rfl
  exact ⟨h1, h2, h3 "created_at" ⟨"2024-01-01T00:00:00", "2024-01-01 00:00:00"⟩
    (by decide) (by decide) rfl⟩

/-- C9 counterexample: a document with both `_id` and a non-timestamp
field `id` — the `id` field is overwritten by the identifier string, so
the claim's "every top-level field other than `_id` and timestamp fields
is carried into the output unchanged" fails. -/
theorem C9_counterexample :
    dictLookup "id"
        [("_id", .vId ⟨"507f1f77bcf86cd799439011"⟩), ("id", .vStr "keep")] =
      some (.vStr "keep") ∧
    hasIsoformat (.vStr "keep") = false ∧
    ¬ dictLookup "id" (serialize_doc
        [("_id", .vId ⟨"507f1f77bcf86cd799439011"⟩), ("id", .vStr "keep")]) =
      some (.vStr "keep") := by
  refine ⟨rfl, rfl, ?_⟩
  decide

/-- C9 (amended): `serialize_doc` works on a copy (the embedding is pure,
matching `out = {**doc}`); for every key other than `_id` and `id` the
output value is exactly the input value passed through the datetime
conversion, so non-timestamp fields are carried unchanged and no fields
besides `_id`/`id` are added or removed. -/
theorem C9_serialize_frame (d : Doc) (k : String)
    (h1 : ¬ k = "_id") (h2 : ¬ k = "id") :
    dictLookup k (serialize_doc d) = (dictLookup k d).map convVal ∧
    (∀ v, hasIsoformat v = false → convVal v = v) := by
  refine ⟨dictLookup_serialize_other d k h1 h2, ?_⟩
  intro v hv
  cases v with
  | vDatetime t => simp [hasIsoformat] at hv
  | vId o => rfl
  | vStr s => rfl
  | vInt n => rfl
  | vBool b => rfl

/-- Witness for C9: the frame statement at a concrete document and the
field `notes`. -/
theorem C9_serialize_frame_witness :
    dictLookup "notes" (serialize_doc
        [("_id", .vId ⟨"507f1f77bcf86cd799439011"⟩), ("notes", .vStr "ring bell")]) =
      (dictLookup "notes"
        [("_id", .vId ⟨"507f1f77bcf86cd799439011"⟩), ("notes", .vStr "ring bell")]).map
        convVal :=
  (C9_serialize_frame
    [("_id", .vId ⟨"507f1f77bcf86cd799439011"⟩), ("notes", .vStr "ring bell")]
    "notes" (by decide) (by decide)).1

/-- C5: every Order or Payment construction input containing a negative
price, amount or total, or an OrderItem quantity below 1, fails validation
with an error — whether the bad field sits on an OrderItem directly, on the
Order's total, inside the Order's item list, or on a Payment's amount. -/
theorem C5_nonneg_validation
    (i1 : OrderItemInput) (q : Int) (hq1 : i1.quantity = some q) (hq2 : q < 1)
    (i2 : OrderItemInput) (p : Rat) (hp1 : i2.price = some p) (hp2 : p < 0)
    (oi : OrderInput) (t : Rat) (ht1 : oi.total = some t) (ht2 : t < 0)
    (pin : PaymentInput) (a : Rat) (ha1 : pin.amount = some a) (ha2 : a < 0)
    (oi2 : OrderInput) (l : List OrderItemInput) (it : OrderItemInput) (msg : String)
    (hl : oi2.items = some l) (hit : it ∈ l) (hbad : parseOrderItem it = .error msg) :
    (∃ e, parseOrderItem i1 = .error e) ∧
    (∃ e, parseOrderItem i2 = .error e) ∧
    (∃ e, parseOrder oi = .error e) ∧
    (∃ e, parsePayment pin = .error e) ∧
    (∃ e, parseOrder oi2 = .error e) := by
  refine ⟨?_, ?_, ?_, ?_, ?_⟩
  · apply error_of_not_ok
    intro b hb
    obtain ⟨_, hq, hge, _, _⟩ := parseOrderItem_ok i1 b hb
    rw [hq1] at hq
    injection hq with hq
    omega
  · apply error_of_not_ok
    intro b hb
    obtain ⟨_, _, _, hp, hge⟩ := parseOrderItem_ok i2 b hb
    rw [hp1] at hp
    injection hp with hp
    rw [← hp] at hge
    exact absurd hge (not_le.mpr hp2)
  · apply error_of_not_ok
    intro o ho
    obtain ⟨_, _, _, _, _, _, _, _, htotal⟩ := parseOrder_ok oi o ho
    rw [ht1] at htotal
    obtain ⟨hge, _⟩ := geField_ok _ _ _ _ htotal
    simp only [Option.getD_some] at hge
    exact absurd hge (not_le.mpr ht2)
  · apply error_of_not_ok
    intro pa hpa
    obtain ⟨_, hamt, hge, _, _⟩ := parsePayment_ok pin pa hpa
    rw [ha1] at hamt
    injection hamt with hamt
    rw [← hamt] at hge
    exact absurd hge (not_le.mpr ha2)
  · apply error_of_not_ok
    intro o ho
    obtain ⟨_, _, _, hitems, _, _, _, _, _⟩ := parseOrder_ok oi2 o ho
    rw [hl] at hitems
    simp only [Option.getD_some] at hitems
    obtain ⟨b, hb⟩ := mapME_ok_forall _ _ _ hitems it hit
    rw [hbad] at hb
    exact absurd hb (by simp)

/-- Witness for C5: concrete bad inputs — an item with quantity 0, an item
with price -1, an order with total -1, a payment with amount -1, and an
order whose item list contains the quantity-0 item. -/
theorem C5_nonneg_validation_witness :
    (∃ e, parseOrderItem ⟨some "Shirt", some 0, some 5⟩ = .error e) ∧
    (∃ e, parseOrderItem ⟨some "Shirt", some 2, some (-1)⟩ = .error e) ∧
    (∃ e, parseOrder ⟨none, none, none, none, none, none, none, none, none,
      none, some (-1)⟩ = .error e) ∧
    (∃ e, parsePayment ⟨none, some (-1), none, none, none⟩ = .error e) ∧
    (∃ e, parseOrder ⟨none, none, none, some [⟨some "Shirt", some 0, some 5⟩],
      none, none, none, none, none, none, none⟩ = .error e) :=
  C5_nonneg_validation
    ⟨some "Shirt", some 0, some 5⟩ 0 rfl (by decide)
    ⟨some "Shirt", some 2, some (-1)⟩ (-1) rfl (by decide)
    ⟨none, none, none, none, none, none, none, none, none, none, some (-1)⟩
      (-1) rfl (by decide)
    ⟨none, some (-1), none, none, none⟩ (-1) rfl (by decide)
    ⟨none, none, none, some [⟨some "Shirt", some 0, some 5⟩], none, none,
      none, none, none, none, none⟩
    [⟨some "Shirt", some 0, some 5⟩] ⟨some "Shirt", some 0, some 5⟩
    "ValidationError: quantity is below the minimum"
    rfl (List.mem_singleton.mpr rfl) rfl

/-- C6: a status string outside the declared Order status enum is rejected
by `parseOrderStatus`, by direct Order construction, and by the
status-update payload; moreover the update payload accepts exactly the
status strings the Order record type accepts (it reuses the same literal
annotation). -/
theorem C6_status_enum_validation (s : String)
    (h1 : ¬ s = "PENDING") (h2 : ¬ s = "DRIVER_ASSIGNED") (h3 : ¬ s = "PICKED_UP")
    (h4 : ¬ s = "IN_WASH") (h5 : ¬ s = "OUT_FOR_DELIVERY") (h6 : ¬ s = "DELIVERED") :
    parseOrderStatus s = none ∧
    (∀ i o, i.status = some s → ¬ parseOrder i = .ok o) ∧
    (∀ st, ¬ parseStatusUpdate (some s) = .ok st) ∧
    (∀ s2 : String, (∃ st, parseStatusUpdate (some s2) = .ok st) ↔
      ∃ st, parseOrderStatus s2 = some st) := by
  have hn : parseOrderStatus s = none := by
    unfold parseOrderStatus
    rw [if_neg h1, if_neg h2, if_neg h3, if_neg h4, if_neg h5, if_neg h6]
  refine ⟨hn, ?_, ?_, ?_⟩
  · intro i o hi h
    obtain ⟨_, _, _, _, _, _, hstat, _, _⟩ := parseOrder_ok i o h
    rw [hi] at hstat
    have hps := enumField_ok_some _ _ _ _ _ hstat
    rw [hn] at hps
    exact absurd hps (by simp)
  · intro st h
    have hps := reqEnumField_ok_some _ _ _ _ h
    rw [hn] at hps
    exact absurd hps (by simp)
  · intro s2
    constructor
    · rintro ⟨st, h⟩
      exact ⟨st, reqEnumField_ok_some _ _ _ _ h⟩
    · rintro ⟨st, h⟩
      refine ⟨st, ?_⟩
      simp only [parseStatusUpdate, reqEnumField]
      rw [h]
      rfl

/-- Witness for C6: the status string "CANCELLED" is outside the enum. -/
theorem C6_status_enum_validation_witness :
    parseOrderStatus "CANCELLED" = none :=
  (C6_status_enum_validation "CANCELLED" (by decide) (by decide) (by decide)
    (by decide) (by decide) (by decide)).1

/-- C7: `POST /api/orders` with a valid Order answers 201 with exactly the
fields `id` (the identifier the create operation returned) and `status`
(the submitted order's status); when the create operation raises, the
handler fails with a 500 carrying the exception text; and an Order parsed
from an input omitting `status` has status PENDING. -/
theorem C7_create_order_response (order : Order) (oid : String) (e : String)
    (i : OrderInput) (o : Order) (hparse : parseOrder i = .ok o) (hs : i.status = none) :
    create_order order (.ok oid) =
      .ok 201 [("id", .vStr oid), ("status", .vStr (statusStr order.status))] ∧
    create_order order (.error e) = .err 500 e ∧
    o.status = .PENDING := by
  refine ⟨rfl, rfl, ?_⟩
  obtain ⟨_, _, _, _, _, _, hstat, _, _⟩ := parseOrder_ok i o hparse
  rw [hs] at hstat
  have hd : (Except.ok OrderStatus.PENDING : Except String OrderStatus) = .ok o.status := hstat
  injection hd with hd
  exact hd.symm

/-- Witness for C7: a concrete valid order created under id
`"507f1f77bcf86cd799439011"`, a concrete storage exception, and a concrete
input omitting `status`. -/
theorem C7_create_order_response_witness :
    create_order ⟨"cust1", none, .wash_fold, [], "a1", "a2", none, none,
        .PENDING, .cod, 0⟩ (.ok "507f1f77bcf86cd799439011") =
      .ok 201 [("id", .vStr "507f1f77bcf86cd799439011"),
        ("status", .vStr (statusStr OrderStatus.PENDING))] ∧
    create_order ⟨"cust1", none, .wash_fold, [], "a1", "a2", none, none,
        .PENDING, .cod, 0⟩ (.error "storage down") = .err 500 "storage down" ∧
    (⟨"cust1", none, .wash_fold, [], "a1", "a2", none, none,
        .PENDING, .cod, 0⟩ : Order).status = .PENDING :=
  C7_create_order_response
    ⟨"cust1", none, .wash_fold, [], "a1", "a2", none, none, .PENDING, .cod, 0⟩
    "507f1f77bcf86cd799439011" "storage down"
    ⟨some "cust1", none, some "wash_fold", none, some "a1", some "a2",
      none, none, none, none, none⟩
    ⟨"cust1", none, .wash_fold, [], "a1", "a2", none, none, .PENDING, .cod, 0⟩
    rfl rfl

/-- C8: the declared defaults hold for records constructed without the
corresponding optional field: User.is_active = true, Driver.is_available =
true, Order.status = PENDING, Order.payment_method = cod, Order.total = 0,
Payment.status = PENDING. -/
theorem C8_declared_defaults
    (ui : UserInput) (u : User) (hu : parseUser ui = .ok u) (hua : ui.is_active = none)
    (di : DriverInput) (dr : Driver) (hd : parseDriver di = .ok dr)
    (hda : di.is_available = none)
    (oi : OrderInput) (o : Order) (ho : parseOrder oi = .ok o)
    (hos : oi.status = none) (hop : oi.payment_method = none) (hot : oi.total = none)
    (pin : PaymentInput) (pa : Payment) (hp : parsePayment pin = .ok pa)
    (hps : pin.status = none) :
    u.is_active = true ∧ dr.is_available = true ∧ o.status = .PENDING ∧
    o.payment_method = .cod ∧ o.total = 0 ∧ pa.status = .PENDING := by
  obtain ⟨_, _, _, hua'⟩ := parseUser_ok ui u hu
  obtain ⟨_, hda'⟩ := parseDriver_ok di dr hd
  obtain ⟨_, _, _, _, _, _, hstat, hpm, htot⟩ := parseOrder_ok oi o ho
  obtain ⟨_, _, _, _, hpstat⟩ := parsePayment_ok pin pa hp
  rw [hos] at hstat
  rw [hop] at hpm
  rw [hot] at htot
  rw [hps] at hpstat
  refine ⟨?_, ?_, ?_, ?_, ?_, ?_⟩
  · rw [hua', hua]
    rfl
  · rw [hda', hda]
    rfl
  · have hd1 : (Except.ok OrderStatus.PENDING : Except String OrderStatus) = .ok o.status :=
      hstat
    injection hd1 with hd1
    exact hd1.symm
  · have hd2 : (Except.ok PaymentMethod.cod : Except String PaymentMethod) =
      .ok o.payment_method := hpm
    injection hd2 with hd2
    exact hd2.symm
  · obtain ⟨_, htot'⟩ := geField_ok _ _ _ _ htot
    simpa using htot'
  · have hd3 : (Except.ok PaymentStatus.PENDING : Except String PaymentStatus) =
      .ok pa.status := hpstat
    injection hd3 with hd3
    exact hd3.symm

/-- Witness for C8: concrete inputs for each record type, each omitting
the optional field in question. -/
theorem C8_declared_defaults_witness :
    (⟨"A", "1", none, none, .customer, true⟩ : User).is_active = true ∧
    (⟨"u1", none, none, true⟩ : Driver).is_available = true ∧
    (⟨"cust1", none, .wash_fold, [], "a1", "a2", none, none,
        .PENDING, .cod, 0⟩ : Order).status = .PENDING ∧
    (⟨"cust1", none, .wash_fold, [], "a1", "a2", none, none,
        .PENDING, .cod, 0⟩ : Order).payment_method = .cod ∧
    (⟨"cust1", none, .wash_fold, [], "a1", "a2", none, none,
        .PENDING, .cod, 0⟩ : Order).total = 0 ∧
    (⟨"o1", 10, .cod, .PENDING, none⟩ : Payment).status = .PENDING :=
  C8_declared_defaults
    ⟨some "A", some "1", none, none, none, none⟩
    ⟨"A", "1", none, none, .customer, true⟩ rfl rfl
    ⟨some "u1", none, none, none⟩ ⟨"u1", none, none, true⟩ rfl rfl
    ⟨some "cust1", none, some "wash_fold", none, some "a1", some "a2",
      none, none, none, none, none⟩
    ⟨"cust1", none, .wash_fold, [], "a1", "a2", none, none, .PENDING, .cod, 0⟩
    rfl rfl rfl rfl
    ⟨some "o1", some 10, some "cod", none, none⟩
    ⟨"o1", 10, .cod, .PENDING, none⟩ rfl rfl

/-- C10: a User constructed without a role field gets the role
"customer" — the default declared in `schemas.py` but unstated in
the specification. -/
theorem C10_user_role_default (i : UserInput) (u : User)
    (h : parseUser i = .ok u) (hr : i.role = none) : u.role = .customer := by
  obtain ⟨_, _, hrole, _⟩ := parseUser_ok i u h
  rw [hr] at hrole
  have hd : (Except.ok Role.customer : Except String Role) = .ok u.role := hrole
  injection hd with hd
  exact hd.symm

/-- Witness for C10: a concrete User input with no role field parses to
role customer. -/
theorem C10_user_role_default_witness :
    (⟨"B", "2", none, none, .customer, true⟩ : User).role = .customer :=
  C10_user_role_default ⟨some "B", some "2", none, none, none, none⟩
    ⟨"B", "2", none, none, .customer, true⟩ rfl rfl
